import Mathlib

/-!
Shallow embedding of the core of the GKE Autopilot cost calculator
(package `calculator`, files `calculator.go` and `pricing.go`, plus the
`ComputeClass` enumeration from package `cluster`).

Modelling conventions:
* Go `int64` resource quantities are modelled as `Int`.  The quantities of
  interest (milli-CPU, MiB of memory/storage, GPU counts) are far below the
  `int64` range, so two-complement wraparound is not modelled.
* Go `float64` prices are modelled as `Rat`; every price constant occurring
  in the sources is an exact decimal, and all the operations performed on
  prices by the embedded functions are sums, products and divisions by 1000.
* Functions whose Go original can panic (out-of-range slice index) return
  `Option`, with `none` standing for the panic.
* Calls to `log.Printf` / `fmt.Printf` carry no information into any return
  value, so the log-only range checks of `DecideComputeClass` (which Go
  performs purely for their side effect on the log) are not reproduced.
-/

namespace AutopilotCalc

/-- The compute classes of `cluster` (constants `ComputeClassGeneralPurpose`,
`ComputeClassBalanced`, `ComputeClassScaleout`, `ComputeClassScaleoutArm`,
`ComputeClassPerformance`, `ComputeClassAccelerator`, `ComputeClassGPUPod`
referenced throughout `calculator.go`). -/
inductive ComputeClass where
  | generalPurpose
  | balanced
  | scaleout
  | scaleoutArm
  | performance
  | accelerator
  | gpuPod
deriving DecidableEq, Repr

/-- Embedding of `ValidateAndRoundResources` (calculator.go): floors each
resource at its minimum (50 mCPU, 52 MiB memory, 10 MiB storage) and rounds
the cpu request up to the next multiple of 50 mCPU. -/
def ValidateAndRoundResources (mCPU memory storage : ℤ) : ℤ × ℤ × ℤ :=
  let mCPU := if mCPU < 50 then 50 else mCPU
  let memory := if memory < 52 then 52 else memory
  let storage := if storage < 10 then 10 else storage
  let mCPUMissing := 50 - mCPU % 50
  if mCPUMissing = 50 then
    (mCPU, memory, storage)
  else
    (mCPU + mCPUMissing, memory, storage)

/-- Characterization of the cpu component of `ValidateAndRoundResources`. -/
theorem ValidateAndRoundResources_cpu (c m s : ℤ) :
    (ValidateAndRoundResources c m s).1 =
      (if 50 - (if c < 50 then 50 else c) % 50 = 50 then (if c < 50 then 50 else c)
       else (if c < 50 then 50 else c) + (50 - (if c < 50 then 50 else c) % 50)) := by
  simp only [ValidateAndRoundResources]
  split_ifs <;> simp_all

/-- Characterization of the memory component of `ValidateAndRoundResources`. -/
theorem ValidateAndRoundResources_mem (c m s : ℤ) :
    (ValidateAndRoundResources c m s).2.1 = (if m < 52 then 52 else m) := by
  simp only [ValidateAndRoundResources]
  split_ifs <;> simp_all

/-- Characterization of the storage component of `ValidateAndRoundResources`. -/
theorem ValidateAndRoundResources_st (c m s : ℤ) :
    (ValidateAndRoundResources c m s).2.2 = (if s < 10 then 10 else s) := by
  simp only [ValidateAndRoundResources]
  split_ifs <;> simp_all

/-- Shared bounds lemma: floors and step alignment of the normalizer. -/
theorem ValidateAndRoundResources_bounds (c m s : ℤ) :
    50 ≤ (ValidateAndRoundResources c m s).1 ∧
    52 ≤ (ValidateAndRoundResources c m s).2.1 ∧
    10 ≤ (ValidateAndRoundResources c m s).2.2 ∧
    (ValidateAndRoundResources c m s).1 % 50 = 0 := by
  rw [ValidateAndRoundResources_cpu, ValidateAndRoundResources_mem,
    ValidateAndRoundResources_st]
  split_ifs <;> omega

/-- C6: for every input triple, each component of the output of
`ValidateAndRoundResources` is at or above its configured minimum
(cpu 50, memory 52, storage 10), and the output cpu is an exact multiple
of the step size 50. -/
theorem ValidateAndRoundResources_floors_and_step (c m s : ℤ) :
    50 ≤ (ValidateAndRoundResources c m s).1 ∧
    52 ≤ (ValidateAndRoundResources c m s).2.1 ∧
    10 ≤ (ValidateAndRoundResources c m s).2.2 ∧
    (ValidateAndRoundResources c m s).1 % 50 = 0 :=
  ValidateAndRoundResources_bounds c m s

/-- C7: `ValidateAndRoundResources` is idempotent: applying it to its own
output returns that output unchanged. -/
theorem ValidateAndRoundResources_idem (c m s : ℤ) :
    ValidateAndRoundResources (ValidateAndRoundResources c m s).1
      (ValidateAndRoundResources c m s).2.1 (ValidateAndRoundResources c m s).2.2 =
    ValidateAndRoundResources c m s := by
  have h := ValidateAndRoundResources_bounds c m s
  refine Prod.ext ?_ (Prod.ext ?_ ?_)
  · rw [ValidateAndRoundResources_cpu]
    split_ifs <;> omega
  · rw [ValidateAndRoundResources_mem]
    split_ifs <;> omega
  · rw [ValidateAndRoundResources_st]
    split_ifs <;> omega

/-- C10: normalization never lowers a resource value, and the output cpu
exceeds the input cpu by less than one rounding step:
`out.cpu < max (in.cpu) 50 + 50`. -/
theorem ValidateAndRoundResources_monotone_bound (c m s : ℤ) :
    c ≤ (ValidateAndRoundResources c m s).1 ∧
    m ≤ (ValidateAndRoundResources c m s).2.1 ∧
    s ≤ (ValidateAndRoundResources c m s).2.2 ∧
    (ValidateAndRoundResources c m s).1 < max c 50 + 50 := by
  rw [ValidateAndRoundResources_cpu, ValidateAndRoundResources_mem,
    ValidateAndRoundResources_st]
  rcases max_cases c 50 with ⟨h1, h2⟩ | ⟨h1, h2⟩ <;> rw [h1] <;> split_ifs <;> omega

/-- C5 counterexample: on input `(999, 52, 10)` the rounded cpu is 1000 but
the returned memory stays at 52; it is not raised to match cpu, refuting the
claimed 1:1 minimum memory:cpu ratio floor. -/
theorem normalizer_memory_ratio_counterexample :
    ValidateAndRoundResources 999 52 10 = (1000, 52, 10) ∧
    (ValidateAndRoundResources 999 52 10).2.1 ≠ (ValidateAndRoundResources 999 52 10).1 := by
  constructor <;> decide

/-- C5 amended: the returned memory never depends on the cpu input at all:
for every input triple the memory component of the output is exactly
`max memory 52` (the fixed 52 MiB floor), regardless of how cpu was rounded. -/
theorem ValidateAndRoundResources_memory_only_floored (c m s : ℤ) :
    (ValidateAndRoundResources c m s).2.1 = max m 52 := by
  rw [ValidateAndRoundResources_mem]
  split_ifs <;> omega

/-- Embedding of Go `strings.Split(s, sep)` for a one-character separator,
acting on the character list of the string.  `Split` never returns an empty
slice: splitting the empty string yields one empty piece. -/
def splitOnChar (sep : Char) : List Char → List (List Char)
  | [] => [[]]
  | c :: cs =>
    if c = sep then [] :: splitOnChar sep cs
    else
      match splitOnChar sep cs with
      | [] => [[c]]
      | h :: t => (c :: h) :: t

theorem splitOnChar_ne_nil (sep : Char) (l : List Char) : splitOnChar sep l ≠ [] := by
  induction l with
  | nil => simp [splitOnChar]
  | cons c cs ih =>
    simp only [splitOnChar]
    split_ifs
    · simp
    · rcases hcs : splitOnChar sep cs with _ | ⟨h1, t1⟩ <;> simp

/-- The separator never occurs in any piece produced by `splitOnChar`. -/
theorem splitOnChar_not_mem (sep : Char) (l : List Char) :
    ∀ p ∈ splitOnChar sep l, sep ∉ p := by
  induction l with
  | nil =>
    intro p hp
    simp only [splitOnChar, List.mem_singleton] at hp
    subst hp; simp
  | cons c cs ih =>
    intro p hp
    simp only [splitOnChar] at hp
    by_cases hc : c = sep
    · rw [if_pos hc] at hp
      rcases List.mem_cons.mp hp with rfl | hp
      · simp
      · exact ih p hp
    · rw [if_neg hc] at hp
      rcases hcs : splitOnChar sep cs with _ | ⟨h1, t1⟩
      · exact absurd hcs (splitOnChar_ne_nil sep cs)
      · rw [hcs] at hp ih
        rcases List.mem_cons.mp hp with rfl | hp
        · intro hmem
          rcases List.mem_cons.mp hmem with h | h
          · exact hc h.symm
          · exact ih h1 (List.mem_cons_self h1 t1) h
        · exact ih p (List.mem_cons_of_mem h1 hp)

/-- Accumulator for `decDigits`: consumes decimal digits left to right. -/
def decDigitsAux : List Char → Nat → Option Nat
  | [], acc => some acc
  | c :: cs, acc =>
    if c.isDigit then decDigitsAux cs (acc * 10 + (c.toNat - 48)) else none

/-- Decimal digit-string parser: fails on the empty string or on any
non-digit character, as Go `strconv.Atoi` does after sign handling.
Overflow clamping of `Atoi` is not modelled (the instance-type core counts
that reach it are tiny). -/
def decDigits (l : List Char) : Option Nat :=
  if l.isEmpty then none else decDigitsAux l 0

/-- Embedding of Go `strconv.Atoi`: optional single leading sign followed by
one or more decimal digits; any other shape is an error (`none`). -/
def goAtoi (l : List Char) : Option Int :=
  match l with
  | '+' :: rest => (decDigits rest).map (fun n => (n : Int))
  | '-' :: rest => (decDigits rest).map (fun n => -(n : Int))
  | _ => (decDigits l).map (fun n => (n : Int))

/-- Go pattern `cpus, _ := strconv.Atoi(s)`: the error is discarded and the
zero value is kept on failure. -/
def goAtoiOrZero (l : List Char) : ℤ := (goAtoi l).getD 0

/-- A string without a minus sign never parses to a negative value. -/
theorem goAtoiOrZero_nonneg (l : List Char) (h : ('-' : Char) ∉ l) :
    0 ≤ goAtoiOrZero l := by
  have hmap : ∀ o : Option Nat, 0 ≤ (o.map (fun n => (n : Int))).getD 0 := by
    intro o; cases o <;> simp
  unfold goAtoiOrZero goAtoi
  split
  · exact hmap _
  · simp at h
  · exact hmap _

/-- Embedding of Go `strings.Contains(s, sub)` on character lists:
`charsContain sub s` is true when `sub` occurs contiguously inside `s`
(always true for the empty `sub`). -/
def charsContain (sub : List Char) : List Char → Bool
  | [] => sub.isEmpty
  | c :: t => sub.isPrefixOf (c :: t) || charsContain sub t

/-- Price table `GCEPriceList` (pricing.go).  The `Region` field is used
only in log messages and is omitted. -/
structure GCEPriceList where
  H3CpuPrice : ℚ
  H3MemoryPrice : ℚ
  C2CpuPrice : ℚ
  C2MemoryPrice : ℚ
  C2DCpuPrice : ℚ
  C2DMemoryPrice : ℚ
  G2CpuPrice : ℚ
  G2MemoryPrice : ℚ
  A2CpuPrice : ℚ
  A2MemoryPrice : ℚ
  A3CpuPrice : ℚ
  A3MemoryPrice : ℚ
  SpotC2CpuPrice : ℚ
  SpotC2MemoryPrice : ℚ
  SpotC2DCpuPrice : ℚ
  SpotC2DMemoryPrice : ℚ
  SpotG2DCpuPrice : ℚ
  SpotG2DMemoryPrice : ℚ
  SpotA2CpuPrice : ℚ
  SpotA2MemoryPrice : ℚ
  SpotA3CpuPrice : ℚ
  SpotA3MemoryPrice : ℚ
deriving DecidableEq

/-- Every rate of a `GCEPriceList` is non-negative. -/
def GCERatesNonneg (g : GCEPriceList) : Prop :=
  0 ≤ g.H3CpuPrice ∧ 0 ≤ g.H3MemoryPrice ∧
  0 ≤ g.C2CpuPrice ∧ 0 ≤ g.C2MemoryPrice ∧
  0 ≤ g.C2DCpuPrice ∧ 0 ≤ g.C2DMemoryPrice ∧
  0 ≤ g.G2CpuPrice ∧ 0 ≤ g.G2MemoryPrice ∧
  0 ≤ g.A2CpuPrice ∧ 0 ≤ g.A2MemoryPrice ∧
  0 ≤ g.A3CpuPrice ∧ 0 ≤ g.A3MemoryPrice ∧
  0 ≤ g.SpotC2CpuPrice ∧ 0 ≤ g.SpotC2MemoryPrice ∧
  0 ≤ g.SpotC2DCpuPrice ∧ 0 ≤ g.SpotC2DMemoryPrice ∧
  0 ≤ g.SpotG2DCpuPrice ∧ 0 ≤ g.SpotG2DMemoryPrice ∧
  0 ≤ g.SpotA2CpuPrice ∧ 0 ≤ g.SpotA2MemoryPrice ∧
  0 ≤ g.SpotA3CpuPrice ∧ 0 ≤ g.SpotA3MemoryPrice

/-- Embedding of `GetGCEMachinePrice` (calculator.go).  The Go function
splits the instance type on `"-"` and immediately indexes elements 0, 1
and 2 of the result; when the instance type has fewer than three
dash-separated segments this indexing panics, which the embedding renders
as `none`.  On the successful path the result is always `some`: unknown
machine families and class types fall through to zero values exactly as in
the source.  In the spot branch for the `h3` family the source reads the
non-spot fields `H3CpuPrice` and `H3MemoryPrice`.

First, the implied-RAM computation of the function (local variable `ram` in
the source): a family-class-specific multiplier applied to the parsed core
count, rounded up with `math.Ceil`; an unknown class type leaves the Go
zero value in place. -/
def gceImpliedRam (classType : List Char) (cpus : ℤ) : ℚ :=
  ((⌈(if classType = "standard".toList then (cpus : ℚ) * 4
      else if classType = "highcpu".toList then (cpus : ℚ) * 2
      else if classType = "highmem".toList then (cpus : ℚ) * 4
      else if classType = "highgpu".toList then (cpus : ℚ) * 7.0833
      else if classType = "ultragpu".toList then (cpus : ℚ) * 14.1666
      else 0)⌉ : ℤ) : ℚ)

/-- Body of `GetGCEMachinePrice`; see the comment on `gceImpliedRam` for the
panic and zero-value conventions. -/
def GetGCEMachinePrice (g : GCEPriceList) (instanceType : String) (spot : Bool) :
    Option ℚ :=
  match splitOnChar '-' instanceType.data with
  | machineType :: classType :: cpuStr :: _ =>
    let cpus : ℤ := goAtoiOrZero cpuStr
    let ram : ℚ := gceImpliedRam classType cpus
    if spot then
      if machineType = "a2".toList then
        some (g.SpotA2CpuPrice * (cpus : ℚ) + g.SpotA2MemoryPrice * ram)
      else if machineType = "a3".toList then
        some (g.SpotA3CpuPrice * (cpus : ℚ) + g.SpotA3MemoryPrice * ram)
      else if machineType = "g2".toList then
        some (g.SpotG2DCpuPrice * (cpus : ℚ) + g.SpotG2DMemoryPrice * ram)
      else if machineType = "h3".toList then
        some (g.H3CpuPrice * (cpus : ℚ) + g.H3MemoryPrice * ram)
      else if machineType = "c2".toList then
        some (g.SpotC2CpuPrice * (cpus : ℚ) + g.SpotC2MemoryPrice * ram)
      else if machineType = "c2d".toList then
        some (g.SpotC2DCpuPrice * (cpus : ℚ) + g.SpotC2DMemoryPrice * ram)
      else some 0
    else
      if machineType = "a2".toList then
        some (g.A2CpuPrice * (cpus : ℚ) + g.A2MemoryPrice * ram)
      else if machineType = "a3".toList then
        some (g.A3CpuPrice * (cpus : ℚ) + g.A3MemoryPrice * ram)
      else if machineType = "g2".toList then
        some (g.G2CpuPrice * (cpus : ℚ) + g.G2MemoryPrice * ram)
      else if machineType = "h3".toList then
        some (g.H3CpuPrice * (cpus : ℚ) + g.H3MemoryPrice * ram)
      else if machineType = "c2".toList then
        some (g.C2CpuPrice * (cpus : ℚ) + g.C2MemoryPrice * ram)
      else if machineType = "c2d".toList then
        some (g.C2DCpuPrice * (cpus : ℚ) + g.C2DMemoryPrice * ram)
      else some 0
  | _ => none

/-- The implied RAM is never negative when the parsed core count is not. -/
theorem gceImpliedRam_nonneg (classType : List Char) (cpus : ℤ) (h : 0 ≤ cpus) :
    0 ≤ gceImpliedRam classType cpus := by
  have hc : (0 : ℚ) ≤ (cpus : ℚ) := by exact_mod_cast h
  unfold gceImpliedRam
  have h0 : (0 : ℚ) ≤
      (if classType = "standard".toList then (cpus : ℚ) * 4
       else if classType = "highcpu".toList then (cpus : ℚ) * 2
       else if classType = "highmem".toList then (cpus : ℚ) * 4
       else if classType = "highgpu".toList then (cpus : ℚ) * 7.0833
       else if classType = "ultragpu".toList then (cpus : ℚ) * 14.1666
       else 0) := by
    split_ifs <;> first
      | exact mul_nonneg hc (by norm_num)
      | norm_num
  exact_mod_cast Int.ceil_nonneg h0

set_option maxHeartbeats 1600000 in
/-- Whenever `GetGCEMachinePrice` returns, the returned price is
non-negative, provided every rate in the table is. -/
theorem GetGCEMachinePrice_nonneg (g : GCEPriceList) (hg : GCERatesNonneg g)
    (it : String) (spot : Bool) (q : ℚ)
    (h : GetGCEMachinePrice g it spot = some q) : 0 ≤ q := by
  obtain ⟨h1, h2, h3, h4, h5, h6, h7, h8, h9, h10, h11,
    h12, h13, h14, h15, h16, h17, h18, h19, h20, h21, h22⟩ := hg
  unfold GetGCEMachinePrice at h
  rcases hs : splitOnChar '-' it.data with _ | ⟨m, _ | ⟨c, _ | ⟨n, rest⟩⟩⟩ <;>
    rw [hs] at h
  · exact absurd h (by simp)
  · exact absurd h (by simp)
  · exact absurd h (by simp)
  · have hn : ('-' : Char) ∉ n :=
      splitOnChar_not_mem '-' it.data n (by rw [hs]; simp)
    have hcpus : (0 : ℤ) ≤ goAtoiOrZero n := goAtoiOrZero_nonneg n hn
    have hcq : (0 : ℚ) ≤ ((goAtoiOrZero n : ℤ) : ℚ) := by exact_mod_cast hcpus
    have hram : (0 : ℚ) ≤ gceImpliedRam c (goAtoiOrZero n) :=
      gceImpliedRam_nonneg c _ hcpus
    simp only [] at h
    split_ifs at h
    all_goals injection h with h
    all_goals subst h
    all_goals first
      | (refine add_nonneg (mul_nonneg ?_ hcq) (mul_nonneg ?_ hram) <;> assumption)
      | norm_num

/-- C8: the Go source of `GetGCEMachinePrice` unconditionally indexes the
third dash-separated segment of the instance type, so for a real two-segment
machine type such as `e2-medium` it panics (modelled as `none`) instead of
returning a price, for every price table and both spot modes. -/
theorem GetGCEMachinePrice_short_instance_panics (g : GCEPriceList) (spot : Bool) :
    GetGCEMachinePrice g "e2-medium" spot = none := by
  have hs : splitOnChar '-' ("e2-medium" : String).data =
      ["e2".toList, "medium".toList] := by decide
  unfold GetGCEMachinePrice
  rw [hs]

/-- C9: for every instance type whose machine family parses to `h3` and
every price table, the spot price equals the on-demand price: the `h3` spot
branch reads the non-spot fields `H3CpuPrice` and `H3MemoryPrice`. -/
theorem GetGCEMachinePrice_h3_spot_eq (g : GCEPriceList) (it : String)
    (h : (splitOnChar '-' it.data).head? = some ("h3".toList)) :
    GetGCEMachinePrice g it true = GetGCEMachinePrice g it false := by
  unfold GetGCEMachinePrice
  rcases hs : splitOnChar '-' it.data with _ | ⟨m, _ | ⟨c, _ | ⟨n, rest⟩⟩⟩
  · rw [hs] at h
  · rfl
  · rfl
  · rw [hs] at h
    simp only [List.head?, Option.some.injEq] at h
    subst h
    simp +decide

/-- Mock GCE price table of the repository's test harness (`TestMain`): all
rates zero, matching the `GCEPriceList` literal of the test file. -/
def testGCEPricing : GCEPriceList where
  H3CpuPrice := 0
  H3MemoryPrice := 0
  C2CpuPrice := 0
  C2MemoryPrice := 0
  C2DCpuPrice := 0
  C2DMemoryPrice := 0
  G2CpuPrice := 0
  G2MemoryPrice := 0
  A2CpuPrice := 0
  A2MemoryPrice := 0
  A3CpuPrice := 0
  A3MemoryPrice := 0
  SpotC2CpuPrice := 0
  SpotC2MemoryPrice := 0
  SpotC2DCpuPrice := 0
  SpotC2DMemoryPrice := 0
  SpotG2DCpuPrice := 0
  SpotG2DMemoryPrice := 0
  SpotA2CpuPrice := 0
  SpotA2MemoryPrice := 0
  SpotA3CpuPrice := 0
  SpotA3MemoryPrice := 0

/-- C9 witness: the `h3` spot/on-demand agreement at the concrete instance
type `h3-standard-88`. -/
theorem GetGCEMachinePrice_h3_spot_eq_witness :
    (splitOnChar '-' ("h3-standard-88" : String).data).head? = some ("h3".toList) ∧
    GetGCEMachinePrice testGCEPricing "h3-standard-88" true =
      GetGCEMachinePrice testGCEPricing "h3-standard-88" false :=
  ⟨by decide, GetGCEMachinePrice_h3_spot_eq testGCEPricing "h3-standard-88" (by decide)⟩

/-- Price table `AutopilotPriceList` (pricing.go).  The `Region` field is
used only in log messages and is omitted. -/
structure AutopilotPriceList where
  StoragePrice : ℚ
  CpuPrice : ℚ
  MemoryPrice : ℚ
  SpotCpuPrice : ℚ
  SpotMemoryPrice : ℚ
  CpuBalancedPrice : ℚ
  MemoryBalancedPrice : ℚ
  SpotCpuBalancedPrice : ℚ
  SpotMemoryBalancedPrice : ℚ
  CpuScaleoutPrice : ℚ
  MemoryScaleoutPrice : ℚ
  SpotCpuScaleoutPrice : ℚ
  SpotMemoryScaleoutPrice : ℚ
  CpuArmScaleoutPrice : ℚ
  MemoryArmScaleoutPrice : ℚ
  SpotArmCpuScaleoutPrice : ℚ
  SpotArmMemoryScaleoutPrice : ℚ
  GPUPodvCPUPrice : ℚ
  GPUPodMemoryPrice : ℚ
  GPUPodLocalSSDPrice : ℚ
  NVIDIAL4PodGPUPrice : ℚ
  NVIDIAT4PodGPUPrice : ℚ
  NVIDIAA10040GPodGPUPrice : ℚ
  NVIDIAA10080GPodGPUPrice : ℚ
  SpotGPUPodvCPUPrice : ℚ
  SpotGPUPodMemoryPrice : ℚ
  SpotGPUPodLocalSSDPrice : ℚ
  SpotGPUPodPDPricePremium : ℚ
  SpotNVIDIAL4PodGPUPrice : ℚ
  SpotNVIDIAT4PodGPUPrice : ℚ
  SpotNVIDIAA10040GPodGPUPrice : ℚ
  SpotNVIDIAA10080GPodGPUPrice : ℚ
  PerformanceCpuPricePremium : ℚ
  PerformanceMemoryPricePremium : ℚ
  PerformancePDPricePremium : ℚ
  PerformanceLocalSSDPricePremium : ℚ
  SpotPerformanceCpuPricePremium : ℚ
  SpotPerformanceMemoryPricePremium : ℚ
  SpotPerformancePDPricePremium : ℚ
  SpotPerformanceLocalSSDPricePremium : ℚ
  AcceleratorCpuPricePremium : ℚ
  AcceleratorMemoryGPUPricePremium : ℚ
  AcceleratorPDPricePremium : ℚ
  AcceleratorLocalSSDPricePremium : ℚ
  AcceleratorT4GPUPricePremium : ℚ
  AcceleratorL4GPUPricePremium : ℚ
  AcceleratorA10040GGPUPricePremium : ℚ
  AcceleratorA10080GGPUPricePremium : ℚ
  AcceleratorH100GPUPricePremium : ℚ
  SpotAcceleratorCpuPricePremium : ℚ
  SpotAcceleratorMemoryGPUPricePremium : ℚ
  SpotAcceleratorPDPricePremium : ℚ
  SpotAcceleratorLocalSSDPricePremium : ℚ
  SpotAcceleratorT4GPUPricePremium : ℚ
  SpotAcceleratorL4GPUPricePremium : ℚ
  SpotAcceleratorA10040GGPUPricePremium : ℚ
  SpotAcceleratorA10080GGPUPricePremium : ℚ
  SpotAcceleratorH100GPUPricePremium : ℚ
deriving DecidableEq

/-- Every rate of an `AutopilotPriceList` that `CalculatePricing` can read
is non-negative.  The fields never read by `CalculatePricing`
(the `PD` premiums and the spot GPU-pod PD premium) are not constrained. -/
def AutopilotRatesNonneg (ap : AutopilotPriceList) : Prop :=
  0 ≤ ap.StoragePrice ∧
  0 ≤ ap.CpuPrice ∧ 0 ≤ ap.MemoryPrice ∧
  0 ≤ ap.SpotCpuPrice ∧ 0 ≤ ap.SpotMemoryPrice ∧
  0 ≤ ap.CpuBalancedPrice ∧ 0 ≤ ap.MemoryBalancedPrice ∧
  0 ≤ ap.SpotCpuBalancedPrice ∧ 0 ≤ ap.SpotMemoryBalancedPrice ∧
  0 ≤ ap.CpuScaleoutPrice ∧ 0 ≤ ap.MemoryScaleoutPrice ∧
  0 ≤ ap.SpotCpuScaleoutPrice ∧ 0 ≤ ap.SpotMemoryScaleoutPrice ∧
  0 ≤ ap.CpuArmScaleoutPrice ∧ 0 ≤ ap.MemoryArmScaleoutPrice ∧
  0 ≤ ap.SpotArmCpuScaleoutPrice ∧ 0 ≤ ap.SpotArmMemoryScaleoutPrice ∧
  0 ≤ ap.GPUPodvCPUPrice ∧ 0 ≤ ap.GPUPodMemoryPrice ∧
  0 ≤ ap.GPUPodLocalSSDPrice ∧
  0 ≤ ap.NVIDIAL4PodGPUPrice ∧ 0 ≤ ap.NVIDIAT4PodGPUPrice ∧
  0 ≤ ap.NVIDIAA10040GPodGPUPrice ∧ 0 ≤ ap.NVIDIAA10080GPodGPUPrice ∧
  0 ≤ ap.SpotGPUPodvCPUPrice ∧ 0 ≤ ap.SpotGPUPodMemoryPrice ∧
  0 ≤ ap.SpotGPUPodLocalSSDPrice ∧
  0 ≤ ap.SpotNVIDIAL4PodGPUPrice ∧ 0 ≤ ap.SpotNVIDIAT4PodGPUPrice ∧
  0 ≤ ap.SpotNVIDIAA10040GPodGPUPrice ∧ 0 ≤ ap.SpotNVIDIAA10080GPodGPUPrice ∧
  0 ≤ ap.PerformanceCpuPricePremium ∧ 0 ≤ ap.PerformanceMemoryPricePremium ∧
  0 ≤ ap.PerformanceLocalSSDPricePremium ∧
  0 ≤ ap.SpotPerformanceCpuPricePremium ∧
  0 ≤ ap.SpotPerformanceMemoryPricePremium ∧
  0 ≤ ap.SpotPerformanceLocalSSDPricePremium ∧
  0 ≤ ap.AcceleratorCpuPricePremium ∧
  0 ≤ ap.AcceleratorMemoryGPUPricePremium ∧
  0 ≤ ap.AcceleratorLocalSSDPricePremium ∧
  0 ≤ ap.AcceleratorT4GPUPricePremium ∧ 0 ≤ ap.AcceleratorL4GPUPricePremium ∧
  0 ≤ ap.AcceleratorA10040GGPUPricePremium ∧
  0 ≤ ap.AcceleratorA10080GGPUPricePremium ∧
  0 ≤ ap.AcceleratorH100GPUPricePremium ∧
  0 ≤ ap.SpotAcceleratorCpuPricePremium ∧
  0 ≤ ap.SpotAcceleratorMemoryGPUPricePremium ∧
  0 ≤ ap.SpotAcceleratorLocalSSDPricePremium ∧
  0 ≤ ap.SpotAcceleratorT4GPUPricePremium ∧
  0 ≤ ap.SpotAcceleratorL4GPUPricePremium ∧
  0 ≤ ap.SpotAcceleratorA10040GGPUPricePremium ∧
  0 ≤ ap.SpotAcceleratorA10080GGPUPricePremium ∧
  0 ≤ ap.SpotAcceleratorH100GPUPricePremium

/-- Embedding of `CalculatePricing` (calculator.go).  Structure mirrors the
source: an outer branch on `spot`, a switch on the compute class in each
arm, inner switches on the GPU model for the Accelerator and GPUPod
classes (an unknown model resets the running premium to zero), and for the
Performance and Accelerator classes the addition of
`GetGCEMachinePrice` (whose error return the source discards; its panic on
malformed instance types propagates and is modelled by `Option.map`).
The Go `default` switch arm is the `generalPurpose` match arm here, since
the six other classes all have explicit cases.  In the spot Accelerator
branch the source reads the non-spot `AcceleratorLocalSSDPricePremium`. -/
def CalculatePricing (ap : AutopilotPriceList) (g : GCEPriceList)
    (cpu memory storage gpu : ℤ) (gpuModel : String)
    (cls : ComputeClass) (instanceType : String) (spot : Bool) : Option ℚ :=
  if spot then
    match cls with
    | .performance =>
      (GetGCEMachinePrice g instanceType spot).map (fun gcePrice =>
        ap.SpotPerformanceCpuPricePremium * (cpu : ℚ) / 1000 +
          ap.SpotPerformanceMemoryPricePremium * (memory : ℚ) / 1000 +
          ap.SpotPerformanceLocalSSDPricePremium * (storage : ℚ) / 1000 +
          gcePrice)
    | .accelerator =>
      (GetGCEMachinePrice g instanceType spot).map (fun gcePrice =>
        (if gpuModel = "nvidia-tesla-t4" then
          ap.SpotAcceleratorCpuPricePremium * (cpu : ℚ) / 1000 +
            ap.SpotAcceleratorMemoryGPUPricePremium * (memory : ℚ) / 1000 +
            ap.AcceleratorLocalSSDPricePremium * (storage : ℚ) / 1000 +
            ap.SpotAcceleratorT4GPUPricePremium * (gpu : ℚ)
        else if gpuModel = "nvidia-l4" then
          ap.SpotAcceleratorCpuPricePremium * (cpu : ℚ) / 1000 +
            ap.SpotAcceleratorMemoryGPUPricePremium * (memory : ℚ) / 1000 +
            ap.AcceleratorLocalSSDPricePremium * (storage : ℚ) / 1000 +
            ap.SpotAcceleratorL4GPUPricePremium * (gpu : ℚ)
        else if gpuModel = "nvidia-tesla-a100" then
          ap.SpotAcceleratorCpuPricePremium * (cpu : ℚ) / 1000 +
            ap.SpotAcceleratorMemoryGPUPricePremium * (memory : ℚ) / 1000 +
            ap.AcceleratorLocalSSDPricePremium * (storage : ℚ) / 1000 +
            ap.SpotAcceleratorA10040GGPUPricePremium * (gpu : ℚ)
        else if gpuModel = "nvidia-a100-80gb" then
          ap.SpotAcceleratorCpuPricePremium * (cpu : ℚ) / 1000 +
            ap.SpotAcceleratorMemoryGPUPricePremium * (memory : ℚ) / 1000 +
            ap.AcceleratorLocalSSDPricePremium * (storage : ℚ) / 1000 +
            ap.SpotAcceleratorA10080GGPUPricePremium * (gpu : ℚ)
        else if gpuModel = "nvidia-h100-80gb" then
          ap.SpotAcceleratorCpuPricePremium * (cpu : ℚ) / 1000 +
            ap.SpotAcceleratorMemoryGPUPricePremium * (memory : ℚ) / 1000 +
            ap.AcceleratorLocalSSDPricePremium * (storage : ℚ) / 1000 +
            ap.SpotAcceleratorH100GPUPricePremium * (gpu : ℚ)
        else 0) + gcePrice)
    | .gpuPod =>
      some
        (if gpuModel = "nvidia-tesla-t4" then
          ap.SpotGPUPodvCPUPrice * (cpu : ℚ) / 1000 +
            ap.SpotGPUPodMemoryPrice * (memory : ℚ) / 1000 +
            ap.SpotGPUPodLocalSSDPrice * (storage : ℚ) / 1000 +
            ap.SpotNVIDIAT4PodGPUPrice * (gpu : ℚ)
        else if gpuModel = "nvidia-l4" then
          ap.SpotGPUPodvCPUPrice * (cpu : ℚ) / 1000 +
            ap.SpotGPUPodMemoryPrice * (memory : ℚ) / 1000 +
            ap.SpotGPUPodLocalSSDPrice * (storage : ℚ) / 1000 +
            ap.SpotNVIDIAL4PodGPUPrice * (gpu : ℚ)
        else if gpuModel = "nvidia-tesla-a100" then
          ap.SpotGPUPodvCPUPrice * (cpu : ℚ) / 1000 +
            ap.SpotGPUPodMemoryPrice * (memory : ℚ) / 1000 +
            ap.SpotGPUPodLocalSSDPrice * (storage : ℚ) / 1000 +
            ap.SpotNVIDIAA10040GPodGPUPrice * (gpu : ℚ)
        else if gpuModel = "nvidia-a100-80gb" then
          ap.SpotGPUPodvCPUPrice * (cpu : ℚ) / 1000 +
            ap.SpotGPUPodMemoryPrice * (memory : ℚ) / 1000 +
            ap.SpotGPUPodLocalSSDPrice * (storage : ℚ) / 1000 +
            ap.SpotNVIDIAA10080GPodGPUPrice * (gpu : ℚ)
        else 0)
    | .balanced =>
      some (ap.SpotCpuPrice * (cpu : ℚ) / 1000 +
        ap.SpotMemoryPrice * (memory : ℚ) / 1000 +
        ap.StoragePrice * (storage : ℚ) / 1000)
    | .scaleout =>
      some (ap.SpotCpuScaleoutPrice * (cpu : ℚ) / 1000 +
        ap.SpotMemoryScaleoutPrice * (memory : ℚ) / 1000 +
        ap.StoragePrice * (storage : ℚ) / 1000)
    | .scaleoutArm =>
      some (ap.SpotArmCpuScaleoutPrice * (cpu : ℚ) / 1000 +
        ap.SpotArmMemoryScaleoutPrice * (memory : ℚ) / 1000 +
        ap.StoragePrice * (storage : ℚ) / 1000)
    | .generalPurpose =>
      some (ap.SpotCpuPrice * (cpu : ℚ) / 1000 +
        ap.SpotMemoryPrice * (memory : ℚ) / 1000 +
        ap.StoragePrice * (storage : ℚ) / 1000)
  else
    match cls with
    | .performance =>
      (GetGCEMachinePrice g instanceType spot).map (fun gcePrice =>
        ap.PerformanceCpuPricePremium * (cpu : ℚ) / 1000 +
          ap.PerformanceMemoryPricePremium * (memory : ℚ) / 1000 +
          ap.PerformanceLocalSSDPricePremium * (storage : ℚ) / 1000 +
          gcePrice)
    | .accelerator =>
      (GetGCEMachinePrice g instanceType spot).map (fun gcePrice =>
        (if gpuModel = "nvidia-tesla-t4" then
          ap.AcceleratorCpuPricePremium * (cpu : ℚ) / 1000 +
            ap.AcceleratorMemoryGPUPricePremium * (memory : ℚ) / 1000 +
            ap.AcceleratorLocalSSDPricePremium * (storage : ℚ) / 1000 +
            ap.AcceleratorT4GPUPricePremium * (gpu : ℚ)
        else if gpuModel = "nvidia-l4" then
          ap.AcceleratorCpuPricePremium * (cpu : ℚ) / 1000 +
            ap.AcceleratorMemoryGPUPricePremium * (memory : ℚ) / 1000 +
            ap.AcceleratorLocalSSDPricePremium * (storage : ℚ) / 1000 +
            ap.AcceleratorL4GPUPricePremium * (gpu : ℚ)
        else if gpuModel = "nvidia-tesla-a100" then
          ap.AcceleratorCpuPricePremium * (cpu : ℚ) / 1000 +
            ap.AcceleratorMemoryGPUPricePremium * (memory : ℚ) / 1000 +
            ap.AcceleratorLocalSSDPricePremium * (storage : ℚ) / 1000 +
            ap.AcceleratorA10040GGPUPricePremium * (gpu : ℚ)
        else if gpuModel = "nvidia-a100-80gb" then
          ap.AcceleratorCpuPricePremium * (cpu : ℚ) / 1000 +
            ap.AcceleratorMemoryGPUPricePremium * (memory : ℚ) / 1000 +
            ap.AcceleratorLocalSSDPricePremium * (storage : ℚ) / 1000 +
            ap.AcceleratorA10080GGPUPricePremium * (gpu : ℚ)
        else if gpuModel = "nvidia-h100-80gb" then
          ap.AcceleratorCpuPricePremium * (cpu : ℚ) / 1000 +
            ap.AcceleratorMemoryGPUPricePremium * (memory : ℚ) / 1000 +
            ap.AcceleratorLocalSSDPricePremium * (storage : ℚ) / 1000 +
            ap.AcceleratorH100GPUPricePremium * (gpu : ℚ)
        else 0) + gcePrice)
    | .gpuPod =>
      some
        (if gpuModel = "nvidia-tesla-t4" then
          ap.GPUPodvCPUPrice * (cpu : ℚ) / 1000 +
            ap.GPUPodMemoryPrice * (memory : ℚ) / 1000 +
            ap.GPUPodLocalSSDPrice * (storage : ℚ) / 1000 +
            ap.NVIDIAT4PodGPUPrice * (gpu : ℚ)
        else if gpuModel = "nvidia-l4" then
          ap.GPUPodvCPUPrice * (cpu : ℚ) / 1000 +
            ap.GPUPodMemoryPrice * (memory : ℚ) / 1000 +
            ap.GPUPodLocalSSDPrice * (storage : ℚ) / 1000 +
            ap.NVIDIAL4PodGPUPrice * (gpu : ℚ)
        else if gpuModel = "nvidia-tesla-a100" then
          ap.GPUPodvCPUPrice * (cpu : ℚ) / 1000 +
            ap.GPUPodMemoryPrice * (memory : ℚ) / 1000 +
            ap.GPUPodLocalSSDPrice * (storage : ℚ) / 1000 +
            ap.NVIDIAA10040GPodGPUPrice * (gpu : ℚ)
        else if gpuModel = "nvidia-a100-80gb" then
          ap.GPUPodvCPUPrice * (cpu : ℚ) / 1000 +
            ap.GPUPodMemoryPrice * (memory : ℚ) / 1000 +
            ap.GPUPodLocalSSDPrice * (storage : ℚ) / 1000 +
            ap.NVIDIAA10080GPodGPUPrice * (gpu : ℚ)
        else 0)
    | .balanced =>
      some (ap.CpuBalancedPrice * (cpu : ℚ) / 1000 +
        ap.MemoryBalancedPrice * (memory : ℚ) / 1000 +
        ap.StoragePrice * (storage : ℚ) / 1000)
    | .scaleout =>
      some (ap.CpuScaleoutPrice * (cpu : ℚ) / 1000 +
        ap.MemoryScaleoutPrice * (memory : ℚ) / 1000 +
        ap.StoragePrice * (storage : ℚ) / 1000)
    | .scaleoutArm =>
      some (ap.CpuArmScaleoutPrice * (cpu : ℚ) / 1000 +
        ap.MemoryArmScaleoutPrice * (memory : ℚ) / 1000 +
        ap.StoragePrice * (storage : ℚ) / 1000)
    | .generalPurpose =>
      some (ap.CpuPrice * (cpu : ℚ) / 1000 +
        ap.MemoryPrice * (memory : ℚ) / 1000 +
        ap.StoragePrice * (storage : ℚ) / 1000)

set_option maxHeartbeats 1600000 in
/-- C2: whenever `CalculatePricing` returns a value (it returns `none` only
when the machine-price lookup of the Performance and Accelerator classes
panics on a malformed instance type, see C8), the value is non-negative,
for every combination of non-negative resource quantities, every GPU model,
every compute class, every instance type and both spot modes, provided
every rate in the two price tables is non-negative. -/
theorem CalculatePricing_nonneg (ap : AutopilotPriceList) (g : GCEPriceList)
    (hap : AutopilotRatesNonneg ap) (hg : GCERatesNonneg g)
    (cpu memory storage gpu : ℤ) (hc : 0 ≤ cpu) (hm : 0 ≤ memory)
    (hst : 0 ≤ storage) (hgpu : 0 ≤ gpu) (gpuModel : String)
    (cls : ComputeClass) (instanceType : String) (spot : Bool) (q : ℚ)
    (hq : CalculatePricing ap g cpu memory storage gpu gpuModel cls
      instanceType spot = some q) :
    0 ≤ q := by
  have hcq : (0 : ℚ) ≤ (cpu : ℚ) := by exact_mod_cast hc
  have hmq : (0 : ℚ) ≤ (memory : ℚ) := by exact_mod_cast hm
  have hsq : (0 : ℚ) ≤ (storage : ℚ) := by exact_mod_cast hst
  have hgq : (0 : ℚ) ≤ (gpu : ℚ) := by exact_mod_cast hgpu
  obtain ⟨a1, a2, a3, a4, a5, a6, a7, a8, a9, a10, a11, a12, a13, a14, a15,
    a16, a17, a18, a19, a20, a21, a22, a23, a24, a25, a26, a27, a28, a29,
    a30, a31, a32, a33, a34, a35, a36, a37, a38, a39, a40, a41, a42, a43,
    a44, a45, a46, a47, a48, a49, a50, a51, a52, a53⟩ := hap
  cases cls <;> cases spot <;>
    simp only [CalculatePricing, if_true, if_false, Bool.false_eq_true] at hq
  all_goals first
    | (simp only [Option.some.injEq] at hq
       subst hq
       (try split_ifs) <;> positivity)
    | (obtain ⟨p, hp, rfl⟩ := Option.map_eq_some'.mp hq
       have hpge : 0 ≤ p := GetGCEMachinePrice_nonneg g hg _ _ p hp
       (try split_ifs) <;> positivity)

/-- Mock Autopilot price table of the repository's test harness
(`TestMain` of the main test file): the non-zero reference rates of the
test region, every other rate zero.  `SpotGPUPodPDPricePremium` is not set
by the test literal and keeps the Go zero value. -/
def testAutopilotPricing : AutopilotPriceList where
  StoragePrice := 0.0000706
  CpuPrice := 0.0573
  MemoryPrice := 0.0063421
  SpotCpuPrice := 0.0172
  SpotMemoryPrice := 0.0019026
  CpuBalancedPrice := 0.0831
  MemoryBalancedPrice := 0.0091933
  SpotCpuBalancedPrice := 0.0249
  SpotMemoryBalancedPrice := 0.002758
  CpuScaleoutPrice := 0.0722
  MemoryScaleoutPrice := 0.0079911
  SpotCpuScaleoutPrice := 0.0217
  SpotMemoryScaleoutPrice := 0.0023973
  CpuArmScaleoutPrice := 0
  MemoryArmScaleoutPrice := 0
  SpotArmCpuScaleoutPrice := 0
  SpotArmMemoryScaleoutPrice := 0
  GPUPodvCPUPrice := 0.071
  GPUPodMemoryPrice := 0
  GPUPodLocalSSDPrice := 0
  NVIDIAL4PodGPUPrice := 0.6783
  NVIDIAT4PodGPUPrice := 0
  NVIDIAA10040GPodGPUPrice := 0
  NVIDIAA10080GPodGPUPrice := 0
  SpotGPUPodvCPUPrice := 0.0213
  SpotGPUPodMemoryPrice := 0
  SpotGPUPodLocalSSDPrice := 0
  SpotGPUPodPDPricePremium := 0
  SpotNVIDIAL4PodGPUPrice := 0
  SpotNVIDIAT4PodGPUPrice := 0.1272
  SpotNVIDIAA10040GPodGPUPrice := 0
  SpotNVIDIAA10080GPodGPUPrice := 0
  PerformanceCpuPricePremium := 0
  PerformanceMemoryPricePremium := 0
  PerformancePDPricePremium := 0
  PerformanceLocalSSDPricePremium := 0
  SpotPerformanceCpuPricePremium := 0
  SpotPerformanceMemoryPricePremium := 0
  SpotPerformancePDPricePremium := 0
  SpotPerformanceLocalSSDPricePremium := 0
  AcceleratorCpuPricePremium := 0
  AcceleratorMemoryGPUPricePremium := 0
  AcceleratorPDPricePremium := 0
  AcceleratorLocalSSDPricePremium := 0
  AcceleratorT4GPUPricePremium := 0
  AcceleratorL4GPUPricePremium := 0
  AcceleratorA10040GGPUPricePremium := 0
  AcceleratorA10080GGPUPricePremium := 0
  AcceleratorH100GPUPricePremium := 0
  SpotAcceleratorCpuPricePremium := 0
  SpotAcceleratorMemoryGPUPricePremium := 0
  SpotAcceleratorPDPricePremium := 0
  SpotAcceleratorLocalSSDPricePremium := 0
  SpotAcceleratorT4GPUPricePremium := 0
  SpotAcceleratorL4GPUPricePremium := 0
  SpotAcceleratorA10040GGPUPricePremium := 0
  SpotAcceleratorA10080GGPUPricePremium := 0
  SpotAcceleratorH100GPUPricePremium := 0

/-- C2 witness: the non-negativity theorem applied to the test harness
price tables at the reference input of the repository's pricing test. -/
theorem CalculatePricing_nonneg_witness :
    AutopilotRatesNonneg testAutopilotPricing ∧
    GCERatesNonneg testGCEPricing ∧
    CalculatePricing testAutopilotPricing testGCEPricing 4000 16000 10000 0 ""
      ComputeClass.generalPurpose "e2-standard-4" false = some (0.3313796 : ℚ) ∧
    (0 : ℚ) ≤ (0.3313796 : ℚ) := by
  have hap : AutopilotRatesNonneg testAutopilotPricing := by
    refine ⟨?_, ?_, ?_, ?_, ?_, ?_, ?_, ?_, ?_, ?_, ?_, ?_, ?_, ?_, ?_, ?_,
      ?_, ?_, ?_, ?_, ?_, ?_, ?_, ?_, ?_, ?_, ?_, ?_, ?_, ?_, ?_, ?_, ?_,
      ?_, ?_, ?_, ?_, ?_, ?_, ?_, ?_, ?_, ?_, ?_, ?_, ?_, ?_, ?_, ?_, ?_,
      ?_, ?_, ?_⟩ <;> norm_num [testAutopilotPricing]
  have hg : GCERatesNonneg testGCEPricing := by
    refine ⟨?_, ?_, ?_, ?_, ?_, ?_, ?_, ?_, ?_, ?_, ?_, ?_, ?_, ?_, ?_, ?_,
      ?_, ?_, ?_, ?_, ?_, ?_⟩ <;> norm_num [testGCEPricing]
  have hq : CalculatePricing testAutopilotPricing testGCEPricing
      4000 16000 10000 0 "" ComputeClass.generalPurpose "e2-standard-4" false =
      some (0.3313796 : ℚ) := by
    simp only [CalculatePricing, if_false, Bool.false_eq_true]
    norm_num [testAutopilotPricing]
  exact ⟨hap, hg, hq,
    CalculatePricing_nonneg testAutopilotPricing testGCEPricing hap hg
      4000 16000 10000 0 (by norm_num) (by norm_num) (by norm_num) (by norm_num)
      "" ComputeClass.generalPurpose "e2-standard-4" false _ hq⟩

/-- C4: for the four ratio-based classes (GeneralPurpose, Balanced,
Scaleout, ScaleoutArm), in both spot and on-demand modes,
`CalculatePricing` returns exactly
`cpuRate * cpu/1000 + memRate * memory/1000 + StoragePrice * storage/1000`,
where the storage term always uses the single non-class-specific
`StoragePrice` and the cpu/memory rates are the fields the source reads for
that class and mode (the spot Balanced branch reads the non-class-specific
`SpotCpuPrice` and `SpotMemoryPrice`); and at the reference rates the
on-demand GeneralPurpose price of (4000, 16000, 10000) is exactly
0.3313796. -/
theorem CalculatePricing_linear_classes (ap : AutopilotPriceList)
    (g : GCEPriceList) (cpu memory storage gpu : ℤ)
    (gpuModel instanceType : String) (spot : Bool) :
    (CalculatePricing ap g cpu memory storage gpu gpuModel
        ComputeClass.generalPurpose instanceType spot =
      some ((if spot then ap.SpotCpuPrice else ap.CpuPrice) * (cpu : ℚ) / 1000 +
        (if spot then ap.SpotMemoryPrice else ap.MemoryPrice) * (memory : ℚ) / 1000 +
        ap.StoragePrice * (storage : ℚ) / 1000)) ∧
    (CalculatePricing ap g cpu memory storage gpu gpuModel
        ComputeClass.balanced instanceType spot =
      some ((if spot then ap.SpotCpuPrice else ap.CpuBalancedPrice) * (cpu : ℚ) / 1000 +
        (if spot then ap.SpotMemoryPrice else ap.MemoryBalancedPrice) * (memory : ℚ) / 1000 +
        ap.StoragePrice * (storage : ℚ) / 1000)) ∧
    (CalculatePricing ap g cpu memory storage gpu gpuModel
        ComputeClass.scaleout instanceType spot =
      some ((if spot then ap.SpotCpuScaleoutPrice else ap.CpuScaleoutPrice) * (cpu : ℚ) / 1000 +
        (if spot then ap.SpotMemoryScaleoutPrice else ap.MemoryScaleoutPrice) * (memory : ℚ) / 1000 +
        ap.StoragePrice * (storage : ℚ) / 1000)) ∧
    (CalculatePricing ap g cpu memory storage gpu gpuModel
        ComputeClass.scaleoutArm instanceType spot =
      some ((if spot then ap.SpotArmCpuScaleoutPrice else ap.CpuArmScaleoutPrice) * (cpu : ℚ) / 1000 +
        (if spot then ap.SpotArmMemoryScaleoutPrice else ap.MemoryArmScaleoutPrice) * (memory : ℚ) / 1000 +
        ap.StoragePrice * (storage : ℚ) / 1000)) ∧
    CalculatePricing testAutopilotPricing testGCEPricing 4000 16000 10000 0 ""
      ComputeClass.generalPurpose "e2-standard-4" false = some (0.3313796 : ℚ) := by
  refine ⟨?_, ?_, ?_, ?_, ?_⟩
  · cases spot <;> rfl
  · cases spot <;> rfl
  · cases spot <;> rfl
  · cases spot <;> rfl
  · simp only [CalculatePricing, if_false, Bool.false_eq_true]
    norm_num [testAutopilotPricing]

/-- Classification thresholds read by `DecideComputeClass` from the ini
configuration; field names follow the ini keys.  Only the keys that
influence the returned class are included: the `performance_*`,
`scaleout_arm_*`, `gpupod_*` and `accelerator_*` band keys are read by the
source solely for log-only range checks (see the file comment) and are
omitted.  The source reads the key `balanced_mcpu_max` for both the
balanced cpu ceiling and the balanced memory ceiling, so the structure
carries that key once. -/
structure IniConfig where
  generalpurposeMin : ℚ
  generalpurposeMax : ℚ
  balancedMin : ℚ
  balancedMax : ℚ
  scaleoutMin : ℚ
  scaleoutMax : ℚ
  generalpurposeMcpuMax : ℤ
  generalpurposeMemoryMax : ℤ
  scaleoutMcpuMax : ℤ
  scaleoutMemoryMax : ℤ
  balancedMcpuMax : ℤ
  gceComputeOptimizedPrefixed : String
  gceAcceleratorOptimizedPrefixed : String
  nvidiaH100Identifier : String

/-- The ratio computed at the top of `DecideComputeClass`:
`math.Ceil(float64(memory) / float64(mCPU))`.  The source relies on the
normalizer's cpu floor to keep `mCPU` positive. -/
def ratioOf (memory mCPU : ℤ) : ℚ :=
  ((⌈(memory : ℚ) / (mCPU : ℚ)⌉ : ℤ) : ℚ)

/-- The prefix-matching loops of `DecideComputeClass`: split a
comma-separated config value and test each piece with
`strings.Contains(machineType, piece)`. -/
def matchesPrefixList (prefixes machineType : String) : Bool :=
  (splitOnChar ',' prefixes.data).any (fun t => charsContain t machineType.data)

/-- The general-purpose band-and-ceiling condition of `DecideComputeClass`. -/
def generalPurposeFits (cfg : IniConfig) (mCPU memory : ℤ) : Bool :=
  decide (cfg.generalpurposeMin ≤ ratioOf memory mCPU) &&
  decide (ratioOf memory mCPU ≤ cfg.generalpurposeMax) &&
  decide (mCPU ≤ cfg.generalpurposeMcpuMax) &&
  decide (memory ≤ cfg.generalpurposeMemoryMax)

/-- The scale-out band-and-ceiling condition of `DecideComputeClass`. -/
def scaleoutFits (cfg : IniConfig) (mCPU memory : ℤ) : Bool :=
  decide (cfg.scaleoutMin ≤ ratioOf memory mCPU) &&
  decide (ratioOf memory mCPU ≤ cfg.scaleoutMax) &&
  decide (mCPU ≤ cfg.scaleoutMcpuMax) &&
  decide (memory ≤ cfg.scaleoutMemoryMax)

/-- The balanced band-and-ceiling condition of `DecideComputeClass`.  The
memory ceiling reads `balanced_mcpu_max`, exactly as the source does. -/
def balancedFits (cfg : IniConfig) (mCPU memory : ℤ) : Bool :=
  decide (cfg.balancedMin ≤ ratioOf memory mCPU) &&
  decide (ratioOf memory mCPU ≤ cfg.balancedMax) &&
  decide (mCPU ≤ cfg.balancedMcpuMax) &&
  decide (memory ≤ cfg.balancedMcpuMax)

/-- Embedding of `DecideComputeClass` (calculator.go): the ordered
first-match-wins branch chain.  The per-branch range checks of the source
only write to the log and never change the returned class, so they do not
appear here. -/
def DecideComputeClass (cfg : IniConfig) (workloadName machineType : String)
    (mCPU memory gpu : ℤ) (gpuModel : String) (arm64 : Bool) : ComputeClass :=
  if matchesPrefixList cfg.gceComputeOptimizedPrefixed machineType then
    ComputeClass.performance
  else if gpuModel = cfg.nvidiaH100Identifier then
    ComputeClass.performance
  else if matchesPrefixList cfg.gceAcceleratorOptimizedPrefixed machineType then
    ComputeClass.accelerator
  else if gpu > 0 then
    ComputeClass.gpuPod
  else if arm64 then
    ComputeClass.scaleoutArm
  else if generalPurposeFits cfg mCPU memory then
    ComputeClass.generalPurpose
  else if scaleoutFits cfg mCPU memory then
    ComputeClass.scaleout
  else if balancedFits cfg mCPU memory then
    ComputeClass.balanced
  else
    ComputeClass.generalPurpose

/-- Every `ComputeClass` value is one of the seven enumerated variants. -/
theorem ComputeClass_enum (x : ComputeClass) :
    x = ComputeClass.generalPurpose ∨ x = ComputeClass.balanced ∨
    x = ComputeClass.scaleout ∨ x = ComputeClass.scaleoutArm ∨
    x = ComputeClass.performance ∨ x = ComputeClass.accelerator ∨
    x = ComputeClass.gpuPod := by
  cases x <;> tauto

/-- C1: for every input with positive cpu and every threshold
configuration, `DecideComputeClass` returns exactly one of the seven
enumerated compute classes (it is a total function into the closed
enumeration), and when none of the machine-family, H100, GPU and arm
branches fire and none of the three ratio-band/ceiling conditions match,
it returns `GeneralPurpose` as the unconditional fallback. -/
theorem DecideComputeClass_total_and_fallback (cfg : IniConfig)
    (workloadName machineType : String) (mCPU memory gpu : ℤ)
    (gpuModel : String) (arm64 : Bool) (hcpu : 0 < mCPU) :
    (DecideComputeClass cfg workloadName machineType mCPU memory gpu gpuModel arm64 =
        ComputeClass.generalPurpose ∨
      DecideComputeClass cfg workloadName machineType mCPU memory gpu gpuModel arm64 =
        ComputeClass.balanced ∨
      DecideComputeClass cfg workloadName machineType mCPU memory gpu gpuModel arm64 =
        ComputeClass.scaleout ∨
      DecideComputeClass cfg workloadName machineType mCPU memory gpu gpuModel arm64 =
        ComputeClass.scaleoutArm ∨
      DecideComputeClass cfg workloadName machineType mCPU memory gpu gpuModel arm64 =
        ComputeClass.performance ∨
      DecideComputeClass cfg workloadName machineType mCPU memory gpu gpuModel arm64 =
        ComputeClass.accelerator ∨
      DecideComputeClass cfg workloadName machineType mCPU memory gpu gpuModel arm64 =
        ComputeClass.gpuPod) ∧
    (matchesPrefixList cfg.gceComputeOptimizedPrefixed machineType = false →
     gpuModel ≠ cfg.nvidiaH100Identifier →
     matchesPrefixList cfg.gceAcceleratorOptimizedPrefixed machineType = false →
     ¬gpu > 0 →
     arm64 = false →
     generalPurposeFits cfg mCPU memory = false →
     scaleoutFits cfg mCPU memory = false →
     balancedFits cfg mCPU memory = false →
     DecideComputeClass cfg workloadName machineType mCPU memory gpu gpuModel arm64 =
       ComputeClass.generalPurpose) := by
  refine ⟨ComputeClass_enum _, ?_⟩
  intro h1 h2 h3 h4 h5 h6 h7 h8
  simp [DecideComputeClass, h1, h2, h3, h4, h5, h6, h7, h8]

/-- Concrete threshold configuration used for witnesses and
counterexamples.  Modelled from the spec: the repository's `config.ini`
(the source of the default thresholds) is not part of the source tree; the
prefix sets and the flagship-GPU identifier follow §4.2 of the spec and the
ratio bands and ceilings are chosen so that the spec's default-threshold
scenarios (§8: `(10000, 10000) ↦ GeneralPurpose`,
`(35000, 100000) ↦ Balanced`) hold. -/
def cfgTest : IniConfig where
  generalpurposeMin := 1
  generalpurposeMax := 6.5
  balancedMin := 1
  balancedMax := 8
  scaleoutMin := 4
  scaleoutMax := 4
  generalpurposeMcpuMax := 30000
  generalpurposeMemoryMax := 110000
  scaleoutMcpuMax := 43000
  scaleoutMemoryMax := 172000
  balancedMcpuMax := 222000
  gceComputeOptimizedPrefixed := "c2,c2d,h3"
  gceAcceleratorOptimizedPrefixed := "a2,a3,g2"
  nvidiaH100Identifier := "nvidia-h100-80gb"

/-- C1 witness: the totality-and-fallback theorem applied at a concrete
input whose ratio (99) falls outside every configured band, so that the
final fallback conjunct is not vacuous. -/
theorem DecideComputeClass_total_and_fallback_witness :
    (0 : ℤ) < 10000 ∧
    ((DecideComputeClass cfgTest "w" "e2-standard-4" 10000 990000 0 "" false =
        ComputeClass.generalPurpose ∨
      DecideComputeClass cfgTest "w" "e2-standard-4" 10000 990000 0 "" false =
        ComputeClass.balanced ∨
      DecideComputeClass cfgTest "w" "e2-standard-4" 10000 990000 0 "" false =
        ComputeClass.scaleout ∨
      DecideComputeClass cfgTest "w" "e2-standard-4" 10000 990000 0 "" false =
        ComputeClass.scaleoutArm ∨
      DecideComputeClass cfgTest "w" "e2-standard-4" 10000 990000 0 "" false =
        ComputeClass.performance ∨
      DecideComputeClass cfgTest "w" "e2-standard-4" 10000 990000 0 "" false =
        ComputeClass.accelerator ∨
      DecideComputeClass cfgTest "w" "e2-standard-4" 10000 990000 0 "" false =
        ComputeClass.gpuPod) ∧
    (matchesPrefixList cfgTest.gceComputeOptimizedPrefixed "e2-standard-4" = false →
     "" ≠ cfgTest.nvidiaH100Identifier →
     matchesPrefixList cfgTest.gceAcceleratorOptimizedPrefixed "e2-standard-4" = false →
     ¬(0 : ℤ) > 0 →
     false = false →
     generalPurposeFits cfgTest 10000 990000 = false →
     scaleoutFits cfgTest 10000 990000 = false →
     balancedFits cfgTest 10000 990000 = false →
     DecideComputeClass cfgTest "w" "e2-standard-4" 10000 990000 0 "" false =
       ComputeClass.generalPurpose)) :=
  ⟨by decide,
    DecideComputeClass_total_and_fallback cfgTest "w" "e2-standard-4"
      10000 990000 0 "" false (by decide)⟩

/-- C3 counterexample: under the test configuration, the workload on
machine type `a3-highgpu-8g` (which matches the accelerator-optimized
prefix `a3`) with one GPU of the configured H100 model classifies as
`Performance`, not `Accelerator`: the H100 branch precedes the
accelerator-optimized branch, refuting the claim quantified over every
GPU model string. -/
theorem accelerator_priority_counterexample :
    matchesPrefixList cfgTest.gceAcceleratorOptimizedPrefixed "a3-highgpu-8g" = true ∧
    (1 : ℤ) > 0 ∧
    DecideComputeClass cfgTest "w" "a3-highgpu-8g" 4000 16000 1 "nvidia-h100-80gb" false =
      ComputeClass.performance ∧
    DecideComputeClass cfgTest "w" "a3-highgpu-8g" 4000 16000 1 "nvidia-h100-80gb" false ≠
      ComputeClass.accelerator := by
  refine ⟨by decide, by decide, by decide, by decide⟩

/-- C3 amended: a workload with `gpuCount > 0` whose machine type matches a
configured accelerator-optimized prefix never classifies as `GPUPod`; it
classifies as `Accelerator` provided additionally that the machine type
matches no compute-optimized prefix and the GPU model is not the configured
H100 identifier (those two earlier branches win and yield `Performance`
otherwise). -/
theorem accelerator_family_never_gpuPod (cfg : IniConfig)
    (workloadName machineType : String) (mCPU memory gpu : ℤ)
    (gpuModel : String) (arm64 : Bool)
    (_hgpu : gpu > 0)
    (hacc : matchesPrefixList cfg.gceAcceleratorOptimizedPrefixed machineType = true) :
    DecideComputeClass cfg workloadName machineType mCPU memory gpu gpuModel arm64 ≠
      ComputeClass.gpuPod ∧
    (matchesPrefixList cfg.gceComputeOptimizedPrefixed machineType = false →
     gpuModel ≠ cfg.nvidiaH100Identifier →
     DecideComputeClass cfg workloadName machineType mCPU memory gpu gpuModel arm64 =
       ComputeClass.accelerator) := by
  by_cases h1 : matchesPrefixList cfg.gceComputeOptimizedPrefixed machineType = true
  · simp [DecideComputeClass, h1]
  · by_cases h2 : gpuModel = cfg.nvidiaH100Identifier
    · simp [DecideComputeClass, h1, h2]
    · simp [DecideComputeClass, h1, h2, hacc]

/-- C3 witness: the amended theorem at a concrete accelerator-optimized
input (`a2-highgpu-1g`, one A100 GPU), where the result is `Accelerator`. -/
theorem accelerator_family_never_gpuPod_witness :
    (1 : ℤ) > 0 ∧
    matchesPrefixList cfgTest.gceAcceleratorOptimizedPrefixed "a2-highgpu-1g" = true ∧
    (DecideComputeClass cfgTest "w" "a2-highgpu-1g" 12000 85000 1 "nvidia-tesla-a100" false ≠
        ComputeClass.gpuPod ∧
      (matchesPrefixList cfgTest.gceComputeOptimizedPrefixed "a2-highgpu-1g" = false →
       "nvidia-tesla-a100" ≠ cfgTest.nvidiaH100Identifier →
       DecideComputeClass cfgTest "w" "a2-highgpu-1g" 12000 85000 1 "nvidia-tesla-a100" false =
         ComputeClass.accelerator)) :=
  ⟨by decide, by decide,
    accelerator_family_never_gpuPod cfgTest "w" "a2-highgpu-1g"
      12000 85000 1 "nvidia-tesla-a100" false (by decide) (by decide)⟩

end AutopilotCalc
